import Mathlib

/-!
Verification of the social-network repository's core logic against its
specification.  The TypeScript source is shallowly embedded: the relational
store (Prisma) becomes an explicit `DBState` record of lists of rows, each
repository or server-action function becomes a Lean function threading that
state, and thrown exceptions become `Except` errors.  A Prisma
`$transaction([...])` is a single state update in the model, so atomicity of
a transaction is atomicity of one function application.
-/

set_option maxRecDepth 4096

/-! ## Pagination helper — src/core/application/dto/pagination.dto.ts -/

structure PaginatedResult (α : Type) where
  items : List α
  nextCursor : Option String
  hasNextPage : Bool
deriving DecidableEq, Repr

/--
Embedding of `createPaginatedResult<T extends \x7bid: string\x7d>(items, limit)`.
The generic field access `.id` becomes the explicit projection `getId`.
`items.slice(0, -1)` is `List.dropLast`.  In the source, when `hasNextPage`
holds the cursor is read as `resultItems[resultItems.length - 1].id`; if
`resultItems` were empty that JavaScript expression would throw a
`TypeError` (property of `undefined`), modelled here as `none`.
-/
def createPaginatedResult {α : Type} (getId : α → String) (items : List α)
    (limit : Nat) : Option (PaginatedResult α) :=
  let hasNextPage := limit < items.length
  let resultItems := if hasNextPage then items.dropLast else items
  if hasNextPage then
    match resultItems.getLast? with
    | none => none
    | some last => some ⟨resultItems, some (getId last), true⟩
  else
    some ⟨resultItems, none, false⟩

/-! ## Rate limiter — src/lib/security/rate-limiter.ts -/

structure RateLimitEntry where
  count : Nat
  resetAt : Nat
deriving DecidableEq, Repr

structure RateLimitResult where
  success : Bool
  remaining : Int
  resetAt : Nat
deriving DecidableEq, Repr

/-- The limiter's `storage : Map<string, RateLimitEntry>`. -/
def RateStore : Type := String → Option RateLimitEntry

def emptyRateStore : RateStore := fun _ => none

namespace InMemoryRateLimiter

/--
Embedding of `InMemoryRateLimiter.limit(identifier, maxRequests, windowMs)`.
`Date.now()` becomes the explicit argument `now`; the method mutates
`this.storage`, so the model returns the result together with the updated
store.  `remaining` is an `Int` because the source computes it with plain
JavaScript subtraction.
-/
def limit (storage : RateStore) (identifier : String)
    (maxRequests windowMs now : Nat) : RateLimitResult × RateStore :=
  match storage identifier with
  | none =>
      (⟨true, (maxRequests : Int) - 1, now + windowMs⟩,
       Function.update storage identifier (some ⟨1, now + windowMs⟩))
  | some entry =>
      if now > entry.resetAt then
        (⟨true, (maxRequests : Int) - 1, now + windowMs⟩,
         Function.update storage identifier (some ⟨1, now + windowMs⟩))
      else if entry.count ≥ maxRequests then
        (⟨false, 0, entry.resetAt⟩, storage)
      else
        (⟨true, (maxRequests : Int) - (entry.count + 1), entry.resetAt⟩,
         Function.update storage identifier (some ⟨entry.count + 1, entry.resetAt⟩))

/--
A sequence of `limit` calls for one identifier, one call per timestamp in
`times`, each call seeing the store left by the previous one.  The source's
`limit` body contains no `await` between the read and the write of an entry,
so on the single-threaded event loop each invocation runs to completion
before the next one starts; any set of "concurrent" calls therefore
executes as such a sequence.
-/
def limitSeq (storage : RateStore) (identifier : String)
    (maxRequests windowMs : Nat) : List Nat → List RateLimitResult × RateStore
  | [] => ([], storage)
  | t :: ts =>
      let step := limit storage identifier maxRequests windowMs t
      let rest := limitSeq step.2 identifier maxRequests windowMs ts
      (step.1 :: rest.1, rest.2)

end InMemoryRateLimiter

/-- Number of successful results in a list of rate-limit results. -/
def successCount (rs : List RateLimitResult) : Nat :=
  (rs.filter (fun r => r.success)).length

/-! ## Data model — prisma rows used by the repositories and actions -/

structure Post where
  id : String
  authorId : String
  content : String
deriving DecidableEq, Repr

structure Like where
  userId : String
  postId : String
deriving DecidableEq, Repr

structure Comment where
  id : String
  content : String
  postId : String
  authorId : String
deriving DecidableEq, Repr

structure Follow where
  followerId : String
  followingId : String
deriving DecidableEq, Repr

inductive NotificationType where
  | LIKE
  | COMMENT
  | FOLLOW
deriving DecidableEq, Repr

/-- A Notification row: `userId` is the recipient, `creatorId` the actor.
Fields never read or distinctly written by the modelled operations
(`read`, `createdAt`, `commentId`) are omitted. -/
structure Notification where
  userId : String
  creatorId : String
  type : NotificationType
  postId : Option String
deriving DecidableEq, Repr

/-- The relational store.  Uniqueness constraints of the Prisma schema
(`@@unique([userId, postId])` on Like, `@@unique([followerId, followingId])`
on Follows) are stated as hypotheses on the theorems that need them. -/
structure DBState where
  posts : List Post
  likes : List Like
  comments : List Comment
  follows : List Follow
  notifications : List Notification
deriving DecidableEq, Repr

/-- `prisma.like.findUnique(\x7bwhere: \x7buserId_postId\x7d\x7d)` selector. -/
def likeMatches (userId postId : String) (l : Like) : Bool :=
  l.userId == userId && l.postId == postId

def findLike (s : DBState) (postId userId : String) : Option Like :=
  s.likes.find? (likeMatches userId postId)

def hasLike (s : DBState) (postId userId : String) : Bool :=
  (findLike s postId userId).isSome

/-- `prisma.like.count(\x7bwhere: \x7bpostId\x7d\x7d)`. -/
def likeCount (s : DBState) (postId : String) : Nat :=
  (s.likes.filter (fun l => l.postId == postId)).length

/-- `prisma.post.findUnique(\x7bwhere: \x7bid\x7d\x7d)`. -/
def findPost (s : DBState) (postId : String) : Option Post :=
  s.posts.find? (fun p => p.id == postId)

/-- The `deleteMany` selector `\x7bpostId, creatorId: userId, type: "LIKE"\x7d`
used on the unlike path.  A notification with `postId = null` does not
match a concrete `postId` filter in Prisma. -/
def likeNotifMatches (postId userId : String) (n : Notification) : Bool :=
  n.postId == some postId && n.creatorId == userId && n.type == .LIKE

def findFollow (s : DBState) (followerId followingId : String) : Option Follow :=
  s.follows.find? (fun f => f.followerId == followerId && f.followingId == followingId)

/-- `getFollowerCount`: `prisma.follows.count(\x7bwhere: \x7bfollowingId\x7d\x7d)`. -/
def followerCount (s : DBState) (userId : String) : Nat :=
  (s.follows.filter (fun f => f.followingId == userId)).length

structure LikeResult where
  liked : Bool
  likeCount : Nat
deriving DecidableEq, Repr

structure FollowResult where
  following : Bool
  followerCount : Nat
deriving DecidableEq, Repr

/-! ## Repository layer — prisma-user.repository.ts -/

/--
The unlike `$transaction` of `PrismaPostRepository.toggleLike`: delete the
Like row (a unique selector — modelled as a filter, since the composite
unique constraint allows at most one matching row) and `deleteMany` the
notifications matching `\x7bpostId, creatorId: userId, type: "LIKE"\x7d`, as one
atomic state update.
-/
def unlikeTxn (s : DBState) (postId userId : String) : DBState :=
  { s with
    likes := s.likes.filter (fun l => !likeMatches userId postId l),
    notifications :=
      s.notifications.filter (fun n => !likeNotifMatches postId userId n) }

/--
The like `$transaction` of `PrismaPostRepository.toggleLike`: create the
Like row and, only when `userId !== post.authorId`, the LIKE notification,
as one atomic state update.
-/
def likeTxn (s : DBState) (postId userId authorId : String) : DBState :=
  { s with
    likes := s.likes ++ [⟨userId, postId⟩],
    notifications :=
      if userId != authorId then
        s.notifications ++ [⟨authorId, userId, .LIKE, some postId⟩]
      else
        s.notifications }

/--
Embedding of `PrismaPostRepository.toggleLike(postId, userId)`.  If the
Like row for (userId, postId) exists, run the unlike transaction; otherwise
load the post's author (`throw new Error("Post not found")` if the post is
absent) and run the like transaction.  The like count is recomputed from
the store after the transaction in both branches.
-/
def toggleLike (s : DBState) (postId userId : String) :
    Except String (LikeResult × DBState) :=
  match findLike s postId userId with
  | some _ =>
      let s' := unlikeTxn s postId userId
      .ok (⟨false, likeCount s' postId⟩, s')
  | none =>
      match findPost s postId with
      | none => .error ("Post not found")
      | some post =>
          let s' := likeTxn s postId userId post.authorId
          .ok (⟨true, likeCount s' postId⟩, s')

/--
Embedding of `PrismaPostRepository.createComment(\x7bpostId, content, authorId\x7d)`.
The generated cuid of the new Comment row is supplied as `newId`.  One
`$transaction` creates the Comment and, only when
`data.authorId !== post.authorId`, the COMMENT notification.
-/
def createComment (s : DBState) (postId content authorId newId : String) :
    Except String (Comment × DBState) :=
  match findPost s postId with
  | none => .error ("Post not found")
  | some post =>
      let c : Comment := ⟨newId, content, postId, authorId⟩
      let s' : DBState :=
        { s with
          comments := s.comments ++ [c],
          notifications :=
            if authorId != post.authorId then
              s.notifications ++ [⟨post.authorId, authorId, .COMMENT, some postId⟩]
            else
              s.notifications }
      .ok (c, s')

/--
Embedding of `PrismaUserRepository.toggleFollow(followerId, followingId)`.
Unfollow: one `$transaction` deletes the Follows row and `deleteMany`s the
notifications `\x7buserId: followingId, creatorId: followerId, type: "FOLLOW"\x7d`.
Follow: one `$transaction` creates the Follows row and — unconditionally,
there is no self-follow guard here — the FOLLOW notification.  The follower
count is recomputed afterwards.
-/
def toggleFollow (s : DBState) (followerId followingId : String) :
    FollowResult × DBState :=
  match findFollow s followerId followingId with
  | some _ =>
      let s' : DBState :=
        { s with
          follows :=
            s.follows.filter
              (fun f => !(f.followerId == followerId && f.followingId == followingId)),
          notifications :=
            s.notifications.filter
              (fun n =>
                !(n.userId == followingId && n.creatorId == followerId &&
                  n.type == .FOLLOW)) }
      (⟨false, followerCount s' followingId⟩, s')
  | none =>
      let s' : DBState :=
        { s with
          follows := s.follows ++ [⟨followerId, followingId⟩],
          notifications :=
            s.notifications ++ [⟨followingId, followerId, .FOLLOW, none⟩] }
      (⟨true, followerCount s' followingId⟩, s')

/--
Modelled from the spec: `FollowUserUseCase.execute` is not present under
src/ (only its unit tests are).  Spec section 4.4: it "rejects
`followerId == followingId` with a distinct message ('Cannot follow
yourself') *before* touching the repository", otherwise delegates to the
repository's `toggleFollow`.
-/
def followUserUseCase (s : DBState) (followerId followingId : String) :
    Except String (FollowResult × DBState) :=
  if followerId = followingId then .error ("Cannot follow yourself")
  else .ok (toggleFollow s followerId followingId)

/-- The composite unique constraint `@@unique([userId, postId])` on Like:
no two rows share the same (userId, postId) pair. -/
def LikesUnique (s : DBState) : Prop :=
  s.likes.Pairwise (fun a b => ¬(a.userId = b.userId ∧ a.postId = b.postId))

/-! ## Validation schema and action layer — post.schema.ts, post.action.ts -/

/-- ECMAScript `String.prototype.trim()`: strip whitespace from both ends.
(Lean's own `String.trim` is equivalent on the inputs considered but is not
kernel-reducible, so the character-list form is used.) -/
def jsTrim (str : String) : String :=
  String.mk (((str.data.dropWhile Char.isWhitespace).reverse.dropWhile
    Char.isWhitespace).reverse)

/--
Embedding of the `content` rules of `createPostSchema`:
`z.string().min(1, "Post cannot be empty").max(5000, ...)`.  Zod runs the
length checks on the raw string; the schema variant with
`.transform((str) => str.trim())` applies the trim only after both checks
pass, and `createPost` in post.action.ts trims the parsed value again, so
under both schema variants the stored content is the trimmed string while
the bounds are checked untrimmed.  The orthogonal `image` field (a zod URL
check on an independent field) is not modelled.
-/
def createPostSchemaContent (content : String) : Except String String :=
  if content.length < 1 then .error ("Post cannot be empty")
  else if content.length > 5000 then .error ("Post is too long (maximum 5000 characters)")
  else .ok content

/-- Outcome of a server action in post.action.ts: `noValue` is the bare
`return;` (the caller receives `undefined`), `ok` is the
`\x7bsuccess: true, ...\x7d` envelope, `err` the catch-all
`\x7bsuccess: false, error\x7d` envelope. -/
inductive ActionOutcome (α : Type) where
  | noValue
  | ok (data : α)
  | err (msg : String)
deriving DecidableEq, Repr

/--
Embedding of `createPost(data)` in src/actions/post.action.ts.  `auth` is
the result of `getDbUserId()` (`none` when no session user resolves, upon
which the action does a bare `return;`).  On successful parse the action
trims the content and creates the Post row (generated id supplied as
`newId`); any thrown error is caught and normalised to the generic failure
envelope.
-/
def createPostAction (auth : Option String) (s : DBState) (newId content : String) :
    ActionOutcome Post × DBState :=
  match auth with
  | none => (.noValue, s)
  | some userId =>
      match createPostSchemaContent content with
      | .error _ => (.err ("Failed to create post"), s)
      | .ok parsed =>
          let p : Post := ⟨newId, userId, jsTrim parsed⟩
          (.ok p, { s with posts := s.posts ++ [p] })

/--
Embedding of `toggleLike(postId)` in src/actions/post.action.ts.  Unlike
the repository version, this legacy action loads the post unconditionally
before branching, and its unlike branch only deletes the Like row — it does
not touch notifications.
-/
def toggleLikeAction (auth : Option String) (s : DBState) (postId : String) :
    ActionOutcome Unit × DBState :=
  match auth with
  | none => (.noValue, s)
  | some userId =>
      match findPost s postId with
      | none => (.err ("Failed to toggle like"), s)
      | some post =>
          match findLike s postId userId with
          | some _ =>
              (.ok (),
               { s with likes := s.likes.filter (fun l => !likeMatches userId postId l) })
          | none =>
              (.ok (),
               { s with
                 likes := s.likes ++ [⟨userId, postId⟩],
                 notifications :=
                   if post.authorId != userId then
                     s.notifications ++ [⟨post.authorId, userId, .LIKE, some postId⟩]
                   else
                     s.notifications })

/-! ## Helper lemmas -/

lemma find?_filter_not_self {α : Type} (l : List α) (q : α → Bool) :
    (l.filter (fun x => !q x)).find? q = none := by
  rw [List.find?_eq_none]
  intro x hx
  simp only [List.mem_filter, Bool.not_eq_true'] at hx
  simp [hx.2]

lemma filter_not_of_find?_none {α : Type} (l : List α) (q : α → Bool)
    (h : l.find? q = none) : l.filter (fun x => !q x) = l := by
  rw [List.find?_eq_none] at h
  apply List.filter_eq_self.mpr
  intro a ha
  simpa using h a ha

lemma find?_append_singleton {α : Type} (l : List α) (q : α → Bool) (x : α)
    (h : l.find? q = none) (hq : q x = true) : (l ++ [x]).find? q = some x := by
  rw [List.find?_append, h]
  simp [hq]

/-! ## C4: pagination -/

/--
C4, counterexample.  The claim states that whenever `items.length > limit`,
`createPaginatedResult` returns exactly `limit` items.  With three items and
`limit = 1` the source's `items.slice(0, -1)` drops only the single last
element and returns two items, not one.
-/
theorem createPaginatedResult_not_truncating :
    createPaginatedResult Post.id
        [⟨"a", "x", ""⟩, ⟨"b", "x", ""⟩, ⟨"c", "x", ""⟩] 1 =
      some ⟨[⟨"a", "x", ""⟩, ⟨"b", "x", ""⟩], some "b", true⟩ ∧
    ¬(([⟨"a", "x", ""⟩, ⟨"b", "x", ""⟩] : List Post).length = 1) := by
  decide

/--
C4, amended.  Under the documented caller precondition
`items.length = limit + 1` (with `limit > 0`), `createPaginatedResult`
returns exactly the first `limit` items in order, `hasNextPage = true`, and
`nextCursor` the id of the last returned item; when `items.length ≤ limit`
it returns all items with `hasNextPage = false` and `nextCursor = none`; in
particular the empty list yields `⟨[], none, false⟩`.  (For
`items.length > limit + 1` the function drops only the last element, which
is what refutes the original universally quantified claim.)
-/
theorem createPaginatedResult_amended {α : Type} (getId : α → String)
    (items : List α) (limit : Nat) :
    (items.length = limit + 1 → 0 < limit →
      createPaginatedResult getId items limit =
        some ⟨items.take limit, (items.take limit).getLast?.map getId, true⟩) ∧
    (items.length ≤ limit →
      createPaginatedResult getId items limit = some ⟨items, none, false⟩) ∧
    createPaginatedResult getId ([] : List α) limit = some ⟨[], none, false⟩ := by
  refine ⟨?_, ?_, ?_⟩
  · intro hlen hpos
    have hlt : limit < items.length := by omega
    have hdrop : items.dropLast = items.take limit := by
      rw [List.dropLast_eq_take items, hlen]
      norm_num
    have hne : items.take limit ≠ [] := by
      have hlt2 : (items.take limit).length = limit := by
        rw [List.length_take]
        omega
      intro hnil
      rw [hnil] at hlt2
      simp at hlt2
      omega
    obtain ⟨last, hlast⟩ :=
      Option.isSome_iff_exists.mp (List.getLast?_isSome.mpr hne)
    simp only [createPaginatedResult, hdrop, if_pos hlt, hlast]
    simp [hlast]
  · intro hle
    have hnlt : ¬(limit < items.length) := by omega
    simp [createPaginatedResult, hnlt]
  · simp [createPaginatedResult]

/--
C4, witness for the amended theorem at a concrete input: three rows,
`limit = 2`.
-/
theorem createPaginatedResult_amended_witness :
    createPaginatedResult Post.id
        [⟨"a", "x", ""⟩, ⟨"b", "x", ""⟩, ⟨"c", "x", ""⟩] 2 =
      some ⟨([⟨"a", "x", ""⟩, ⟨"b", "x", ""⟩, ⟨"c", "x", ""⟩] : List Post).take 2,
            (([⟨"a", "x", ""⟩, ⟨"b", "x", ""⟩, ⟨"c", "x", ""⟩] : List Post).take 2).getLast?.map Post.id,
            true⟩ :=
  (createPaginatedResult_amended Post.id
    [⟨"a", "x", ""⟩, ⟨"b", "x", ""⟩, ⟨"c", "x", ""⟩] 2).1 (by decide) (by decide)

/-! ## C5: rate limiter behaviour -/

/--
C5: the three behavioural clauses of `InMemoryRateLimiter.limit` — fresh
window when no entry exists or the window expired, rejection with
`remaining = 0` and unchanged `resetAt` when the active entry is at the
cap, increment with `remaining = max - count` otherwise — together with the
concrete consequence for `max = 5, windowMs = 60000`: calls 1–5 in the
window succeed (the 5th with `remaining = 0`), the 6th fails with
`remaining = 0`, and the first call after the window elapses succeeds with
`remaining = 4`.
-/
theorem rateLimiter_limit_spec (s : RateStore) (k : String)
    (maxRequests windowMs now : Nat) :
    ((s k = none ∨ ∃ e, s k = some e ∧ now > e.resetAt) →
      (InMemoryRateLimiter.limit s k maxRequests windowMs now).1 =
          ⟨true, (maxRequests : Int) - 1, now + windowMs⟩ ∧
      (InMemoryRateLimiter.limit s k maxRequests windowMs now).2 k =
          some ⟨1, now + windowMs⟩) ∧
    (∀ e, s k = some e → now ≤ e.resetAt → e.count ≥ maxRequests →
      InMemoryRateLimiter.limit s k maxRequests windowMs now =
        (⟨false, 0, e.resetAt⟩, s)) ∧
    (∀ e, s k = some e → now ≤ e.resetAt → e.count < maxRequests →
      (InMemoryRateLimiter.limit s k maxRequests windowMs now).1 =
          ⟨true, (maxRequests : Int) - (e.count + 1), e.resetAt⟩ ∧
      (InMemoryRateLimiter.limit s k maxRequests windowMs now).2 k =
          some ⟨e.count + 1, e.resetAt⟩) ∧
    (InMemoryRateLimiter.limitSeq emptyRateStore k 5 60000
        [0, 0, 0, 0, 0, 0, 60001]).1 =
      [⟨true, 4, 60000⟩, ⟨true, 3, 60000⟩, ⟨true, 2, 60000⟩, ⟨true, 1, 60000⟩,
       ⟨true, 0, 60000⟩, ⟨false, 0, 60000⟩, ⟨true, 4, 120001⟩] := by
  refine ⟨?_, ?_, ?_, ?_⟩
  · rintro (hnone | ⟨e, hsome, hgt⟩)
    · simp [InMemoryRateLimiter.limit, hnone]
    · simp [InMemoryRateLimiter.limit, hsome, hgt]
  · intro e hsome hle hge
    simp [InMemoryRateLimiter.limit, hsome, Nat.not_lt.mpr hle, hge]
  · intro e hsome hle hlt
    simp [InMemoryRateLimiter.limit, hsome, Nat.not_lt.mpr hle, Nat.not_le.mpr hlt]
  · simp [InMemoryRateLimiter.limitSeq, InMemoryRateLimiter.limit, emptyRateStore]

/--
C5, witness: the fresh-window clause at an empty store, the rejection
clause at a full entry, and the increment clause at a partial entry, all at
concrete inputs.
-/
theorem rateLimiter_limit_spec_witness :
    ((InMemoryRateLimiter.limit emptyRateStore "u" 5 60000 0).1 =
        ⟨true, (5 : Int) - 1, 0 + 60000⟩) ∧
    (InMemoryRateLimiter.limit
        (Function.update emptyRateStore "u" (some ⟨5, 60000⟩)) "u" 5 60000 7 =
      (⟨false, 0, 60000⟩, Function.update emptyRateStore "u" (some ⟨5, 60000⟩))) ∧
    ((InMemoryRateLimiter.limit
        (Function.update emptyRateStore "u" (some ⟨2, 60000⟩)) "u" 5 60000 7).1 =
      ⟨true, (5 : Int) - (2 + 1), 60000⟩) := by
  refine ⟨?_, ?_, ?_⟩
  · exact ((rateLimiter_limit_spec emptyRateStore "u" 5 60000 0).1 (Or.inl rfl)).1
  · exact (rateLimiter_limit_spec _ "u" 5 60000 7).2.1 ⟨5, 60000⟩
      (Function.update_same "u" (some ⟨5, 60000⟩) emptyRateStore)
      (by norm_num) (by norm_num)
  · exact ((rateLimiter_limit_spec _ "u" 5 60000 7).2.2.1 ⟨2, 60000⟩
      (Function.update_same "u" (some ⟨2, 60000⟩) emptyRateStore)
      (by norm_num) (by norm_num)).1

/-! ## C10: admission count under concurrent calls -/

/--
Counting lemma: starting from a store whose entry for `k` is `⟨c, r⟩`, a
sequence of calls at times within the window (all `≤ r`) admits exactly
`min (number of calls) (maxRequests - c)` of them and rejects the rest.
-/
lemma limitSeq_counts (k : String) (maxRequests windowMs : Nat) :
    ∀ (ts : List Nat) (s : RateStore) (c r : Nat),
      s k = some ⟨c, r⟩ → (∀ t ∈ ts, t ≤ r) →
      successCount (InMemoryRateLimiter.limitSeq s k maxRequests windowMs ts).1 =
          min ts.length (maxRequests - c) ∧
      (((InMemoryRateLimiter.limitSeq s k maxRequests windowMs ts).1.filter
          (fun x => !x.success)).length = ts.length - (maxRequests - c)) := by
  intro ts
  induction ts with
  | nil => intro s c r hs hw; simp [InMemoryRateLimiter.limitSeq, successCount]
  | cons t ts ih =>
    intro s c r hs hw
    have ht : t ≤ r := hw t (by simp)
    have hw' : ∀ u ∈ ts, u ≤ r := fun u hu => hw u (by simp [hu])
    by_cases hc : c ≥ maxRequests
    · -- at the cap: this call fails and leaves the store unchanged
      have hcall : InMemoryRateLimiter.limit s k maxRequests windowMs t =
          (⟨false, 0, r⟩, s) := by
        simp [InMemoryRateLimiter.limit, hs, Nat.not_lt.mpr ht, hc]
      have hrec := ih s c r hs hw'
      simp only [InMemoryRateLimiter.limitSeq, hcall]
      simp [successCount] at hrec ⊢
      refine ⟨?_, ?_⟩
      · rw [hrec.1]; omega
      · rw [hrec.2]; omega
    · -- below the cap: this call succeeds and increments the count
      push_neg at hc
      have hcall : InMemoryRateLimiter.limit s k maxRequests windowMs t =
          (⟨true, (maxRequests : Int) - (c + 1), r⟩,
           Function.update s k (some ⟨c + 1, r⟩)) := by
        simp [InMemoryRateLimiter.limit, hs, Nat.not_lt.mpr ht, Nat.not_le.mpr hc]
      have hrec := ih (Function.update s k (some ⟨c + 1, r⟩)) (c + 1) r
        (Function.update_same k (some ⟨c + 1, r⟩) s) hw'
      simp only [InMemoryRateLimiter.limitSeq, hcall]
      simp [successCount] at hrec ⊢
      refine ⟨?_, ?_⟩
      · rw [hrec.1]; omega
      · rw [hrec.2]; omega

/--
C10: any 10 calls for the same identifier within one window, starting from
no entry, yield exactly 5 successes and 5 failures when `max = 5`.  The
source's `limit` body has no `await` between reading and writing the entry,
so the single-threaded event loop runs each call atomically and 10
concurrent calls execute as some sequence of 10 whole calls — here the
first call at `t1` opens the window and the remaining 9 happen at arbitrary
times inside it.
-/
theorem rateLimiter_concurrent_admission (k : String) (t1 : Nat) (ts : List Nat)
    (hlen : ts.length = 9) (hwin : ∀ t ∈ ts, t ≤ t1 + 60000) :
    successCount
        (InMemoryRateLimiter.limitSeq emptyRateStore k 5 60000 (t1 :: ts)).1 = 5 ∧
    ((InMemoryRateLimiter.limitSeq emptyRateStore k 5 60000 (t1 :: ts)).1.filter
        (fun x => !x.success)).length = 5 := by
  have hcall : InMemoryRateLimiter.limit emptyRateStore k 5 60000 t1 =
      (⟨true, (5 : Int) - 1, t1 + 60000⟩,
       Function.update emptyRateStore k (some ⟨1, t1 + 60000⟩)) := by
    simp [InMemoryRateLimiter.limit, emptyRateStore]
  have hrec := limitSeq_counts k 5 60000 ts
    (Function.update emptyRateStore k (some ⟨1, t1 + 60000⟩)) 1 (t1 + 60000)
    (Function.update_same k (some ⟨1, t1 + 60000⟩) emptyRateStore) hwin
  simp only [InMemoryRateLimiter.limitSeq, hcall]
  simp [successCount] at hrec ⊢
  refine ⟨?_, ?_⟩
  · rw [hrec.1]; omega
  · rw [hrec.2]; omega

/-- C10, witness: 10 calls all at time 0. -/
theorem rateLimiter_concurrent_admission_witness :
    successCount
        (InMemoryRateLimiter.limitSeq emptyRateStore "u" 5 60000
          (0 :: List.replicate 9 0)).1 = 5 ∧
    ((InMemoryRateLimiter.limitSeq emptyRateStore "u" 5 60000
        (0 :: List.replicate 9 0)).1.filter (fun x => !x.success)).length = 5 :=
  rateLimiter_concurrent_admission "u" 0 (List.replicate 9 0) (by decide)
    (by intro t ht; rw [List.eq_of_mem_replicate ht]; omega)

/-! ## C1: toggleLike round-trip -/

lemma toggleLike_of_liked (s : DBState) (postId userId : String) (l0 : Like)
    (h : findLike s postId userId = some l0) :
    toggleLike s postId userId =
      .ok (⟨false, likeCount (unlikeTxn s postId userId) postId⟩,
           unlikeTxn s postId userId) := by
  simp only [toggleLike, h]

lemma toggleLike_of_unliked (s : DBState) (postId userId : String) (post : Post)
    (h : findLike s postId userId = none) (hp : findPost s postId = some post) :
    toggleLike s postId userId =
      .ok (⟨true, likeCount (likeTxn s postId userId post.authorId) postId⟩,
           likeTxn s postId userId post.authorId) := by
  simp only [toggleLike, h, hp]

/--
Counting lemma: under the composite unique constraint, deleting the Like
row of a user who currently likes the post lowers the post's like count by
exactly one.
-/
lemma likeCount_after_unlike (likes : List Like) (userId postId : String)
    (hnd : likes.Pairwise (fun a b => ¬(a.userId = b.userId ∧ a.postId = b.postId)))
    (hex : (likes.find? (likeMatches userId postId)).isSome = true) :
    ((likes.filter (fun l => !likeMatches userId postId l)).filter
        (fun l => l.postId == postId)).length + 1 =
      (likes.filter (fun l => l.postId == postId)).length := by
  induction likes with
  | nil => simp at hex
  | cons a t ih =>
    rw [List.pairwise_cons] at hnd
    by_cases hm : likeMatches userId postId a = true
    · -- `a` is the unique matching row: it is removed on the left and its
      -- postId contributes one on the right; no row of `t` matches
      have hau : a.userId = userId ∧ a.postId = postId := by
        have h := hm
        simp [likeMatches] at h
        exact h
      have htnone : ∀ b ∈ t, likeMatches userId postId b = false := by
        intro b hb
        by_contra hbm
        rw [Bool.not_eq_false] at hbm
        have hbu : b.userId = userId ∧ b.postId = postId := by
          simp [likeMatches] at hbm
          exact hbm
        exact hnd.1 b hb ⟨hau.1.trans hbu.1.symm, hau.2.trans hbu.2.symm⟩
      have hfilt : t.filter (fun l => !likeMatches userId postId l) = t :=
        List.filter_eq_self.mpr (fun b hb => by simp [htnone b hb])
      simp [List.filter_cons, hm, hfilt, hau.2]
    · -- `a` is not the row being deleted: it contributes equally on both sides
      have hex' : (t.find? (likeMatches userId postId)).isSome = true := by
        rw [List.find?_cons_of_neg _ hm] at hex
        exact hex
      have hrec := ih hnd.2 hex'
      simp only [List.filter_filter] at hrec
      rw [Bool.not_eq_true] at hm
      by_cases hpa : (a.postId == postId) = true
      · simp [List.filter_cons, hm, hpa]
        omega
      · rw [Bool.not_eq_true] at hpa
        simp [List.filter_cons, hm, hpa]
        omega

/-- The previous lemma phrased on states. -/
lemma likeCount_unlikeTxn (s : DBState) (postId userId : String)
    (hnd : LikesUnique s) (hex : hasLike s postId userId = true) :
    likeCount (unlikeTxn s postId userId) postId + 1 = likeCount s postId :=
  likeCount_after_unlike s.likes userId postId hnd hex

/-- Appending the fresh Like row raises the post's like count by one. -/
lemma likeCount_likeTxn (s : DBState) (postId userId authorId : String) :
    likeCount (likeTxn s postId userId authorId) postId =
      likeCount s postId + 1 := by
  show ((s.likes ++ [(⟨userId, postId⟩ : Like)]).filter
      (fun l => l.postId == postId)).length = _
  rw [List.filter_append]
  simp [likeCount]

lemma findLike_unlikeTxn (s : DBState) (postId userId : String) :
    findLike (unlikeTxn s postId userId) postId userId = none :=
  find?_filter_not_self s.likes (likeMatches userId postId)

lemma findLike_likeTxn_self (s : DBState) (postId userId authorId : String)
    (h : findLike s postId userId = none) :
    findLike (likeTxn s postId userId authorId) postId userId =
      some ⟨userId, postId⟩ :=
  find?_append_singleton s.likes (likeMatches userId postId) ⟨userId, postId⟩ h
    (by simp [likeMatches])

/--
C1: for every (user, post) pair and every starting state that satisfies the
Like table's composite unique constraint and contains the post, calling
`toggleLike` twice in succession returns to the original state: both calls
succeed, the second call's result reports the original liked boolean and
the original like count, and the Like row for the pair exists afterwards
exactly if it existed before.
-/
theorem toggleLike_twice_restores (s : DBState) (postId userId : String)
    (hnd : LikesUnique s) (hpost : (findPost s postId).isSome = true) :
    ∃ r₁ s₁ r₂ s₂,
      toggleLike s postId userId = .ok (r₁, s₁) ∧
      toggleLike s₁ postId userId = .ok (r₂, s₂) ∧
      r₂.liked = hasLike s postId userId ∧
      r₂.likeCount = likeCount s postId ∧
      hasLike s₂ postId userId = hasLike s postId userId := by
  obtain ⟨post, hpost'⟩ := Option.isSome_iff_exists.mp hpost
  cases hfind : findLike s postId userId with
  | some l0 =>
    -- originally Liked: the first call unlikes, the second likes again
    have h1 := toggleLike_of_liked s postId userId l0 hfind
    have hfind₁ := findLike_unlikeTxn s postId userId
    have hpost₁ : findPost (unlikeTxn s postId userId) postId = some post := hpost'
    have h2 := toggleLike_of_unliked (unlikeTxn s postId userId) postId userId post
      hfind₁ hpost₁
    refine ⟨_, _, _, _, h1, h2, ?_, ?_, ?_⟩
    · simp [hasLike, hfind]
    · show likeCount (likeTxn (unlikeTxn s postId userId) postId userId post.authorId)
          postId = likeCount s postId
      rw [likeCount_likeTxn]
      exact likeCount_unlikeTxn s postId userId hnd (by simp [hasLike, hfind])
    · show hasLike (likeTxn (unlikeTxn s postId userId) postId userId post.authorId)
          postId userId = hasLike s postId userId
      rw [hasLike, findLike_likeTxn_self _ _ _ _ hfind₁]
      simp [hasLike, hfind]
  | none =>
    -- originally Unliked: the first call likes, the second call unlikes
    have h1 := toggleLike_of_unliked s postId userId post hfind hpost'
    have hfind₁ := findLike_likeTxn_self s postId userId post.authorId hfind
    have h2 := toggleLike_of_liked (likeTxn s postId userId post.authorId) postId userId
      ⟨userId, postId⟩ hfind₁
    have hlikes₂ :
        (unlikeTxn (likeTxn s postId userId post.authorId) postId userId).likes =
          s.likes := by
      show (s.likes ++ [(⟨userId, postId⟩ : Like)]).filter
          (fun l => !likeMatches userId postId l) = s.likes
      rw [List.filter_append, filter_not_of_find?_none s.likes _ hfind]
      simp [likeMatches]
    refine ⟨_, _, _, _, h1, h2, ?_, ?_, ?_⟩
    · simp [hasLike, hfind]
    · show likeCount (unlikeTxn (likeTxn s postId userId post.authorId) postId userId)
          postId = likeCount s postId
      unfold likeCount
      rw [hlikes₂]
    · show hasLike (unlikeTxn (likeTxn s postId userId post.authorId) postId userId)
          postId userId = hasLike s postId userId
      unfold hasLike findLike
      rw [hlikes₂]

/-- C1, witness: a single post, an initially unliked pair. -/
theorem toggleLike_twice_restores_witness :
    ∃ r₁ s₁ r₂ s₂,
      toggleLike ⟨[⟨"p1", "a1", "hi"⟩], [], [], [], []⟩ "p1" "u1" = .ok (r₁, s₁) ∧
      toggleLike s₁ "p1" "u1" = .ok (r₂, s₂) ∧
      r₂.liked = hasLike ⟨[⟨"p1", "a1", "hi"⟩], [], [], [], []⟩ "p1" "u1" ∧
      r₂.likeCount = likeCount ⟨[⟨"p1", "a1", "hi"⟩], [], [], [], []⟩ "p1" ∧
      hasLike s₂ "p1" "u1" = hasLike ⟨[⟨"p1", "a1", "hi"⟩], [], [], [], []⟩ "p1" "u1" :=
  toggleLike_twice_restores ⟨[⟨"p1", "a1", "hi"⟩], [], [], [], []⟩ "p1" "u1"
    List.Pairwise.nil (by decide)

/-! ## Concrete states used by witnesses and counterexamples -/

def dbEmpty : DBState := ⟨[], [], [], [], []⟩

/-- Post "p1" by author "a1", liked by "u1", with the corresponding LIKE
notification present. -/
def dbLiked : DBState :=
  ⟨[⟨"p1", "a1", "hi"⟩], [⟨"u1", "p1"⟩], [], [],
   [⟨"a1", "u1", .LIKE, some "p1"⟩]⟩

/-- Post "p1" owned by "u1" themselves, plus one unrelated notification. -/
def dbOwnPost : DBState :=
  ⟨[⟨"p1", "u1", "hi"⟩], [], [], [], [⟨"x", "y", .FOLLOW, none⟩]⟩

/-! ## C2: notification cleanup on unlike -/

/--
C2, for the repository-layer `toggleLike` (prisma-user.repository.ts):
when the pair is currently Liked, the call succeeds with `liked = false`,
and in the resulting state the Like row is gone and no notification with
`\x7btype: LIKE, postId, creatorId: userId\x7d` remains.  Both deletions are part
of `unlikeTxn`, the image of the single `$transaction`, so no intermediate
state with one deletion but not the other exists in the model.
-/
theorem toggleLike_unlike_cleanup (s : DBState) (postId userId : String)
    (h : hasLike s postId userId = true) :
    ∃ r s', toggleLike s postId userId = .ok (r, s') ∧ r.liked = false ∧
      hasLike s' postId userId = false ∧
      ∀ n ∈ s'.notifications,
        ¬(n.type = NotificationType.LIKE ∧ n.postId = some postId ∧
          n.creatorId = userId) := by
  rw [hasLike] at h
  obtain ⟨l0, hfind⟩ := Option.isSome_iff_exists.mp h
  refine ⟨_, _, toggleLike_of_liked s postId userId l0 hfind, rfl, ?_, ?_⟩
  · rw [hasLike, findLike_unlikeTxn]
    rfl
  · intro n hn hcon
    have hn' : n ∈ s.notifications.filter (fun n => !likeNotifMatches postId userId n) :=
      hn
    have hkeep := (List.mem_filter.mp hn').2
    simp [likeNotifMatches, hcon.1, hcon.2.1, hcon.2.2] at hkeep

/-- C2, witness at a concrete Liked state. -/
theorem toggleLike_unlike_cleanup_witness :
    ∃ r s', toggleLike dbLiked "p1" "u1" = .ok (r, s') ∧ r.liked = false ∧
      hasLike s' "p1" "u1" = false ∧
      ∀ n ∈ s'.notifications,
        ¬(n.type = NotificationType.LIKE ∧ n.postId = some "p1" ∧
          n.creatorId = "u1") :=
  toggleLike_unlike_cleanup dbLiked "p1" "u1" (by decide)

/--
C2, counterexample to the claim as stated.  The claim's second cited
source, the legacy server action `toggleLike` in src/actions/post.action.ts,
deletes only the Like row on its unlike path: starting from a Liked state
with its LIKE notification, the action succeeds, the Like row is gone, yet
the notification `\x7btype: LIKE, postId: "p1", creatorId: "u1"\x7d` persists —
so a state with the Like gone but the notification still present is
reachable through that entry point.
-/
theorem toggleLikeAction_stale_notification :
    (toggleLikeAction (some "u1") dbLiked "p1").1 = .ok () ∧
    hasLike (toggleLikeAction (some "u1") dbLiked "p1").2 "p1" "u1" = false ∧
    (⟨"a1", "u1", NotificationType.LIKE, some "p1"⟩ : Notification) ∈
      (toggleLikeAction (some "u1") dbLiked "p1").2.notifications := by
  decide

/-! ## C3: no self-notification -/

/--
C3, counterexample to the claim as stated.  The repository-level
`toggleFollow` has no self-follow guard and creates the FOLLOW notification
unconditionally: invoked with `followerId = followingId = "u1"` on an empty
store it creates a Notification row whose `userId` equals its `creatorId`.
-/
theorem toggleFollow_self_creates_notification :
    (toggleFollow dbEmpty "u1" "u1").1.following = true ∧
    (⟨"u1", "u1", NotificationType.FOLLOW, none⟩ : Notification) ∈
      (toggleFollow dbEmpty "u1" "u1").2.notifications := by
  decide

/--
C3, amended.  Liking one's own post via the repository `toggleLike` and
commenting on one's own post via the repository `createComment` add no
Notification row (every notification after the call was already present
before); for follows the guard lives one layer up — `FollowUserUseCase`
rejects `followerId = followingId` before the repository is reached, while
the repository `toggleFollow` itself would create a self-notification (see
the counterexample).
-/
theorem no_self_notification_amended (s : DBState)
    (postId userId content newId : String) :
    (∀ post r s', findPost s postId = some post → post.authorId = userId →
        toggleLike s postId userId = .ok (r, s') →
        ∀ n ∈ s'.notifications, n ∈ s.notifications) ∧
    (∀ post c s', findPost s postId = some post → post.authorId = userId →
        createComment s postId content userId newId = .ok (c, s') →
        ∀ n ∈ s'.notifications, n ∈ s.notifications) ∧
    followUserUseCase s userId userId = .error ("Cannot follow yourself") := by
  refine ⟨?_, ?_, by simp [followUserUseCase]⟩
  · intro post r s' hp ha htog n hn
    cases hfind : findLike s postId userId with
    | some l0 =>
      rw [toggleLike_of_liked s postId userId l0 hfind] at htog
      simp only [Except.ok.injEq, Prod.mk.injEq] at htog
      rw [← htog.2] at hn
      have hn' : n ∈ s.notifications.filter
          (fun n => !likeNotifMatches postId userId n) := hn
      exact List.mem_of_mem_filter hn'
    | none =>
      rw [toggleLike_of_unliked s postId userId post hfind hp] at htog
      simp only [Except.ok.injEq, Prod.mk.injEq] at htog
      rw [← htog.2] at hn
      have heq : (likeTxn s postId userId post.authorId).notifications =
          s.notifications := by
        show (if userId != post.authorId then _ else s.notifications) =
          s.notifications
        rw [ha]
        simp
      rw [heq] at hn
      exact hn
  · intro post c s' hp ha hcc n hn
    simp only [createComment, hp, ha, bne_self_eq_false] at hcc
    simp only [Except.ok.injEq, Prod.mk.injEq] at hcc
    rw [← hcc.2] at hn
    exact hn

/-- C3, witness: the owner of "p1" likes their own post; the unrelated
pre-existing notification is the only one afterwards, and self-follow is
rejected by the use case. -/
theorem no_self_notification_amended_witness :
    (⟨"x", "y", NotificationType.FOLLOW, none⟩ : Notification) ∈
      dbOwnPost.notifications ∧
    followUserUseCase dbOwnPost "u1" "u1" = .error ("Cannot follow yourself") := by
  constructor
  · exact (no_self_notification_amended dbOwnPost "p1" "u1" "c" "c1").1
      ⟨"p1", "u1", "hi"⟩ ⟨true, 1⟩
      ⟨[⟨"p1", "u1", "hi"⟩], [⟨"u1", "p1"⟩], [], [], [⟨"x", "y", .FOLLOW, none⟩]⟩
      (by decide) rfl rfl ⟨"x", "y", .FOLLOW, none⟩ (by decide)
  · exact (no_self_notification_amended dbOwnPost "p1" "u1" "c" "c1").2.2

/-! ## C7: NotFound exactly when unliked and post absent -/

/--
C7: the repository `toggleLike` fails (with the "Post not found" error)
exactly when no Like row exists for the pair and the post does not exist —
the post lookup happens only on the like-creation path, so the unlike path
never fails for a missing post.  On failure no state is produced: the throw
happens before the `$transaction`, so no Like or Notification row is
created.
-/
theorem toggleLike_notFound_iff (s : DBState) (postId userId : String) :
    toggleLike s postId userId = .error ("Post not found") ↔
      (hasLike s postId userId = false ∧ findPost s postId = none) := by
  cases hfind : findLike s postId userId with
  | some l0 =>
    rw [toggleLike_of_liked s postId userId l0 hfind]
    simp [hasLike, hfind]
  | none =>
    cases hp : findPost s postId with
    | none => simp [toggleLike, hfind, hp, hasLike]
    | some post =>
      rw [toggleLike_of_unliked s postId userId post hfind hp]
      simp [hasLike, hfind, hp]

/-! ## C8: self-follow guard lives in the use case, not the repository -/

/--
C8: `FollowUserUseCase` (modelled from the spec, see `followUserUseCase`)
rejects `followerId = followingId = X` with exactly the message "Cannot
follow yourself" — by construction it returns this error without invoking
`toggleFollow`, so no Follows or Notification row is touched — while the
repository-level `toggleFollow` contains no such guard: called directly
with (X, X) on a state with no such Follows row it proceeds and creates
both the self Follows row and the self FOLLOW notification.
-/
theorem followUserUseCase_self_guard (s : DBState) (userId : String)
    (hnf : findFollow s userId userId = none) :
    followUserUseCase s userId userId = .error ("Cannot follow yourself") ∧
    (⟨userId, userId⟩ : Follow) ∈ (toggleFollow s userId userId).2.follows ∧
    (⟨userId, userId, NotificationType.FOLLOW, none⟩ : Notification) ∈
      (toggleFollow s userId userId).2.notifications := by
  refine ⟨by simp [followUserUseCase], ?_, ?_⟩
  · simp only [toggleFollow, hnf]
    simp
  · simp only [toggleFollow, hnf]
    simp

/-- C8, witness at the empty store. -/
theorem followUserUseCase_self_guard_witness :
    followUserUseCase dbEmpty "u1" "u1" = .error ("Cannot follow yourself") ∧
    (⟨"u1", "u1"⟩ : Follow) ∈ (toggleFollow dbEmpty "u1" "u1").2.follows ∧
    (⟨"u1", "u1", NotificationType.FOLLOW, none⟩ : Notification) ∈
      (toggleFollow dbEmpty "u1" "u1").2.notifications :=
  followUserUseCase_self_guard dbEmpty "u1" rfl

/-! ## C6: post-content bounds -/

/--
C6: boundary behaviour of the `content` rules of `createPostSchema` and of
`createPost`.  Exactly 5000 characters are accepted and 5001 characters or
the empty string are rejected, as the claim states; but zod's `min(1)`
counts the raw, untrimmed string, so the whitespace-only content " " passes
validation, and `createPost` then stores a Post row whose content after
trimming is the empty string — contradicting the claim (and the repo's own
`CreatePostUseCase` test, which expects whitespace-only content to fail
validation).
-/
theorem createPost_whitespace_bug :
    createPostSchemaContent (String.mk (List.replicate 5000 'a')) =
      .ok (String.mk (List.replicate 5000 'a')) ∧
    createPostSchemaContent (String.mk (List.replicate 5001 'a')) =
      .error ("Post is too long (maximum 5000 characters)") ∧
    createPostSchemaContent "" = .error ("Post cannot be empty") ∧
    createPostSchemaContent " " = .ok " " ∧
    (createPostAction (some "u1") dbEmpty "p9" " ").2.posts =
      [⟨"p9", "u1", ""⟩] := by
  refine ⟨?_, ?_, rfl, rfl, by decide⟩
  · have hlen : (String.mk (List.replicate 5000 'a')).length = 5000 := by
      show (List.replicate 5000 'a').length = 5000
      exact List.length_replicate 5000 'a'
    generalize hS : String.mk (List.replicate 5000 'a') = S at hlen ⊢
    unfold createPostSchemaContent
    rw [hlen]
    norm_num
  · have hlen : (String.mk (List.replicate 5001 'a')).length = 5001 := by
      show (List.replicate 5001 'a').length = 5001
      exact List.length_replicate 5001 'a'
    generalize hS : String.mk (List.replicate 5001 'a') = S at hlen ⊢
    unfold createPostSchemaContent
    rw [hlen]
    norm_num

/-! ## C9: unauthenticated writes -/

/--
C9: when no caller identity resolves (`getDbUserId()` returns null), the
write actions in src/actions/post.action.ts execute `if (!userId) return;`
— they return no value at all and perform no work, rather than the claimed
`\x7bsuccess: false, ...\x7d` envelope with an Unauthorized classification that
the repo's own integration test ("should require authentication") expects.
-/
theorem unauthenticated_write_returns_undefined (s : DBState)
    (postId newId content : String) :
    createPostAction none s newId content = (.noValue, s) ∧
    toggleLikeAction none s postId = (.noValue, s) :=
  ⟨rfl, rfl⟩

/-- C7, witness: on the empty store (no like, no post) `toggleLike` does
fail with the "Post not found" error. -/
theorem toggleLike_notFound_iff_witness :
    toggleLike dbEmpty "p1" "u1" = .error ("Post not found") :=
  (toggleLike_notFound_iff dbEmpty "p1" "u1").mpr ⟨rfl, rfl⟩
